import Mathlib

/-!
Shallow embedding of `bgworker/background_process.py`: a supervisor thread
that starts/stops a background worker process based on a configuration leaf
and the node's HA role.  Python values flowing through the event queue are
modelled by `PyVal`; queue items (Python tuples) by `List PyVal`; exceptions
by `Except String` or explicit result constructors.
-/

set_option maxRecDepth 2000

/-- A Python value as it appears in this program: booleans and strings.
`toBool` is Python truthiness for these values. -/
inductive PyVal where
  | bool (b : Bool)
  | str (s : String)
deriving DecidableEq, Repr

def PyVal.toBool : PyVal → Bool
  | .bool b => b
  | .str s => !(s = "")

/-- The worker handle: `self.worker` is `None` or a `multiprocessing.Process`.
`alive` models `is_alive()`; `obeysTerminate` models whether the OS process
dies within the `join(timeout=1)` grace period after `terminate()`. -/
structure Worker where
  alive : Bool
  obeysTerminate : Bool
deriving DecidableEq, Repr

/-- Aggregated supervisor state: the attributes of the `Process` object that
the main loop reads and writes.  `ha_master` is only ever consulted by
`should_run` when `ha_enabled` is true (Python short-circuit `or`). -/
structure SupervisorState where
  config_enabled : Bool
  ha_enabled : Bool
  ha_master : Bool
  worker : Option Worker
deriving DecidableEq, Repr

namespace Process

/-- Line 67-68 of the source:
`should_run = self.config_enabled and (not self.ha_enabled or self.ha_master)`. -/
def should_run (s : SupervisorState) : Bool :=
  s.config_enabled && (!s.ha_enabled || s.ha_master)

/-- The run decision exactly as the spec words it:
`should_run == config_enabled && (!ha_enabled || is_master)`. -/
def spec_should_run (config_enabled ha_enabled is_master : Bool) : Bool :=
  config_enabled && (!ha_enabled || is_master)

def workerAlive : Option Worker → Bool
  | none => false
  | some w => w.alive

/-- Actions `worker_stop` performs, recorded as a trace. -/
inductive WAction where
  | terminate
  | join (timeout : Nat)
  | logError
deriving DecidableEq, Repr

def WAction.isJoin : WAction → Bool
  | .join _ => true
  | _ => false

/-- The trace of calls `worker_stop` makes on a non-`None` worker:
`terminate()`, `join(timeout=1)`, and an error log iff the process is still
alive afterwards. -/
def stopActions (w : Worker) : List WAction :=
  [.terminate, .join 1] ++ if w.alive && !w.obeysTerminate then [.logError] else []

/-- `worker_stop` (lines 123-130).  `self.worker.terminate()` on a `None`
worker raises `AttributeError`; otherwise terminate, `join(timeout=1)`, and
if the process is still alive log an error and return (no retry). -/
def worker_stop : Option Worker → Except String (Option Worker × List WAction)
  | none => .error "AttributeError: NoneType object has no attribute terminate"
  | some w =>
    .ok (some { w with alive := w.alive && !w.obeysTerminate }, stopActions w)

/-- The worker-management prefix of one loop iteration (lines 67-77):
start a fresh worker when it should run but none is alive (stopping a stale
tracked handle first), stop the worker when it is alive but should not run.
`freshObeys` is the terminate-behaviour of a newly spawned worker process. -/
def workerPhase (freshObeys : Bool) (s : SupervisorState) : SupervisorState :=
  let sr := should_run s
  let s1 :=
    if sr && !(workerAlive s.worker) then
      { s with worker := some ⟨true, freshObeys⟩ }
    else s
  match s1.worker with
  | some w =>
    if w.alive && !sr then
      { s1 with worker := some ⟨w.alive && !w.obeysTerminate, w.obeysTerminate⟩ }
    else s1
  | none => s1

/-- Outcome of handling one dequeued item in the main loop. -/
inductive LoopResult where
  | cont (s : SupervisorState)
  | ret (s : SupervisorState)
  | exc (msg : String) (s : SupervisorState)
deriving DecidableEq, Repr

/-- Event handling in `run` (lines 79-91): `k, v = item` (a `ValueError`
unless the tuple has exactly two elements), then dispatch on `k`.  The only
handled keys are `exit` and `enabled`; any other key falls through and the
loop continues with the state unchanged. -/
def processEvent (s : SupervisorState) (item : List PyVal) : LoopResult :=
  match item with
  | [k, v] =>
    if k = .str "exit" then .ret s
    else if k = .str "enabled" then .cont { s with config_enabled := v.toBool }
    else .cont s
  | _ => .exc "ValueError: not enough values to unpack" s

/-- The item `stop()` posts on line 108: `self.q.put(('exit',))` — a
one-element tuple. -/
def exit_event : List PyVal := [.str "exit"]

/-- The item the HA listener posts for an `HA_INFO_IS_NONE` notification. -/
def ha_mode_none_event : List PyVal := [.str "ha-mode", .str "none"]

/-- What the startup transaction reads (lines 43-60): the configuration
leaf's truthiness, whether the HA subtree exists, and the HA mode string. -/
structure InitRead where
  leafVal : Bool
  haExists : Bool
  haMode : String
deriving DecidableEq, Repr

/-- `__init__`'s seeding of the run condition (lines 43-60).  With no
`config_path` the process is assumed enabled.  When the HA subtree exists the
code executes `self.ha_master = (mode == 'master')`, but the local variable
is named `ha_mode`, so the bare name `mode` raises `NameError`.  When HA is
disabled the `ha_master` attribute is never assigned; it is represented as
`false`, which is never read because `should_run` short-circuits. -/
def init (config_path : Option String) (r : InitRead) : Except String SupervisorState :=
  let config_enabled := match config_path with
    | some _ => r.leafVal
    | none => true
  let ha_enabled := r.haExists
  if ha_enabled then
    .error "NameError: name mode is not defined"
  else
    .ok ⟨config_enabled, ha_enabled, false, none⟩

/-- `stop()` (lines 93-110): stop the subscriber threads (no effect on the
supervisor state in this model), call `worker_stop` unconditionally, then
post the exit event and join. -/
def stop (s : SupervisorState) : Except String (SupervisorState × List PyVal) :=
  match worker_stop s.worker with
  | .error e => .error e
  | .ok (w, _) => .ok ({ s with worker := w }, exit_event)

end Process

namespace ConfigSubscriber

/-- `pre_iterate` returns `{'enabled': False}`. -/
def pre_iterate : PyVal := .bool false

/-- `iterate` stores the newest value: `state['enabled'] = newval`, applied
to every sub-change of the commit in order. -/
def iterate_state (subchanges : List PyVal) : PyVal :=
  subchanges.foldl (fun _ nv => nv) pre_iterate

def should_post_iterate : Bool := true

/-- `post_iterate` emits `("enabled", bool(state['enabled']))`. -/
def post_iterate (st : PyVal) : List (String × Bool) :=
  [("enabled", st.toBool)]

/-- Events emitted for one commit cycle that touches the watched path:
`iterate` runs over every sub-change, then `post_iterate` runs once. -/
def commitEvents (subchanges : List PyVal) : List (String × Bool) :=
  if should_post_iterate then post_iterate (iterate_state subchanges) else []

end ConfigSubscriber

namespace HaEventListener

/-- The `_ncs.events` notification-type constants the listener compares
against (distinct integers). -/
def HA_INFO_IS_MASTER : Nat := 1

def HA_INFO_IS_NONE : Nat := 2

/-- A decoded notification: the nested dictionary lookups
`notification['hnot']['type']` can each fail with `KeyError`. -/
structure Hnot where
  type : Option Nat
deriving DecidableEq, Repr

structure Notification where
  hnot : Option Hnot
deriving DecidableEq, Repr

/-- `notification['hnot']['type']` (line 190): `KeyError` when a key is
missing. -/
def extractType (n : Notification) : Except String Nat :=
  match n.hnot with
  | none => .error "KeyError: hnot"
  | some h =>
    match h.type with
    | none => .error "KeyError: type"
    | some t => .ok t

/-- Outcome of handling one notification in the listener loop. -/
inductive HaStepResult where
  | emit (item : List PyVal)
  | skip
  | exception (msg : String)
deriving DecidableEq, Repr

/-- Lines 188-196: extract the type (no try/except around the lookups, so a
failure propagates and kills the thread), then queue an event for the two
recognized roles; any other role is silently ignored. -/
def handleNotification (n : Notification) : HaStepResult :=
  match extractType n with
  | .error m => .exception m
  | .ok t =>
    if t = HA_INFO_IS_MASTER then .emit [.str "ha-mode", .str "master"]
    else if t = HA_INFO_IS_NONE then .emit [.str "ha-mode", .str "none"]
    else .skip

end HaEventListener

namespace WaitableEvent

/-- The state of the pipe underlying a `WaitableEvent`: the number of
unread bytes. A fresh event has an empty pipe. -/
def initState : Nat := 0

/-- `wait(0)` / `is_set`: `select` reports the read end ready iff the pipe
holds data. -/
def is_set (n : Nat) : Bool := n ≠ 0

/-- `set`: `if not self.isSet(): os.write(self._write_fd, '1')`. -/
def set (n : Nat) : Nat := if is_set n then n else n + 1

/-- `clear`: `if self.isSet(): os.read(self._read_fd, 1)`. -/
def clear (n : Nat) : Nat := if is_set n then n - 1 else n

/-- Pipe states reachable through the `WaitableEvent` interface from a
freshly constructed event. -/
inductive Reachable : Nat → Prop
  | init : Reachable initState
  | step_set {n} : Reachable n → Reachable (set n)
  | step_clear {n} : Reachable n → Reachable (clear n)

theorem reachable_le_one {n : Nat} (h : Reachable n) : n ≤ 1 := by
  induction h with
  | init => simp [initState]
  | step_set h ih =>
    rename_i m
    by_cases hn : m = 0
    · subst hn; simp [set, is_set]
    · simpa [set, is_set, hn] using ih
  | step_clear h ih =>
    rename_i m
    by_cases hn : m = 0
    · subst hn; simp [clear, is_set]
    · simp [clear, is_set, hn]; omega

end WaitableEvent

/-- A supervisor state as it stands after an `Enabled(true)` event with HA
not (yet) enabled and a live, cooperative worker process. -/
def demoState : SupervisorState := ⟨true, false, false, some ⟨true, true⟩⟩

/-- Claim C1: for every one of the 8 combinations of
`(config_enabled, ha_enabled, is_master)` (and any worker handle), the
loop's derived run decision equals
`config_enabled && (!ha_enabled || is_master)`. -/
theorem claim_c1_should_run_formula (c h m : Bool) (w : Option Worker) :
    Process.should_run ⟨c, h, m, w⟩ = Process.spec_should_run c h m := rfl

/-- Claim C2, evaluated at the failing input: the main loop has no
`ha-mode` branch, so dequeuing `('ha-mode', 'none')` after `Enabled(true)`
leaves the state unchanged (`ha_enabled` stays false) and the next
worker-management pass keeps the worker running instead of stopping it. -/
theorem claim_c2_ha_mode_event_ignored :
    Process.processEvent demoState Process.ha_mode_none_event =
      Process.LoopResult.cont demoState ∧
    demoState.ha_enabled = false ∧
    Process.workerAlive (Process.workerPhase true demoState).worker = true := by
  decide

/-- Claim C3, evaluated at the failing input: `stop()` posts the one-element
tuple `('exit',)`, and the loop's `k, v = item` unpacking of that item
raises `ValueError` instead of returning normally. -/
theorem claim_c3_exit_event_crashes :
    Process.exit_event.length = 1 ∧
    Process.processEvent demoState Process.exit_event =
      Process.LoopResult.exc "ValueError: not enough values to unpack" demoState := by
  decide

/-- Claim C4, evaluated at the failing input: calling `stop()` when no
worker was ever started (`self.worker` still `None`) reaches
`self.worker.terminate()` and raises `AttributeError` instead of completing. -/
theorem claim_c4_stop_without_worker_raises :
    Process.stop ⟨true, false, false, none⟩ =
      .error "AttributeError: NoneType object has no attribute terminate" := rfl

/-- Claim C5, evaluated at the failing input: when the HA subtree exists,
construction executes `self.ha_master = (mode == 'master')` with the
undefined name `mode` (the variable read was `ha_mode`), so `__init__`
raises `NameError` instead of seeding `is_master`. -/
theorem claim_c5_init_raises_name_error :
    Process.init (some "/bgworker/enabled") ⟨true, true, "master"⟩ =
      .error "NameError: name mode is not defined" := rfl

/-- Claim C6: a commit cycle touching the watched path with any non-empty
sequence of sub-changes (the final one carrying `newval = v`) emits exactly
one event, `('enabled', bool(v))`. -/
theorem claim_c6_one_event_per_commit (l : List PyVal) (v : PyVal) :
    ConfigSubscriber.commitEvents (l ++ [v]) = [("enabled", v.toBool)] := by
  simp [ConfigSubscriber.commitEvents, ConfigSubscriber.iterate_state,
    ConfigSubscriber.should_post_iterate, ConfigSubscriber.post_iterate,
    List.foldl_append]

/-- Claim C7 counterexample: a notification without the `hnot` key is
malformed, and the listener does not treat it as recoverable — the
extraction raises `KeyError`, which nothing catches, rather than skipping
and continuing. -/
theorem claim_c7_counterexample :
    HaEventListener.handleNotification ⟨none⟩ =
      HaEventListener.HaStepResult.exception "KeyError: hnot" ∧
    HaEventListener.handleNotification ⟨none⟩ ≠
      HaEventListener.HaStepResult.skip := by
  decide

/-- Claim C7 amended: for every malformed HA notification payload (one from
which a role type cannot be extracted), the lookup error propagates uncaught
— the listener loop terminates with the exception and emits no event (so it
does not log and continue as the original claim states). -/
theorem claim_c7_malformed_payload_raises (n : HaEventListener.Notification)
    (m : String) (h : HaEventListener.extractType n = .error m) :
    HaEventListener.handleNotification n =
      HaEventListener.HaStepResult.exception m := by
  unfold HaEventListener.handleNotification
  rw [h]

/-- Witness for the amended C7 at a payload whose `hnot` entry lacks the
`type` key. -/
theorem claim_c7_witness :
    HaEventListener.extractType ⟨some ⟨none⟩⟩ = .error "KeyError: type" ∧
    HaEventListener.handleNotification ⟨some ⟨none⟩⟩ =
      HaEventListener.HaStepResult.exception "KeyError: type" :=
  ⟨rfl, claim_c7_malformed_payload_raises ⟨some ⟨none⟩⟩ "KeyError: type" rfl⟩

/-- Claim C8: on every pipe state reachable through the `WaitableEvent`
interface, `set` twice leaves the signal Set with a single buffered byte
(one `clear` returns it to Clear), `set` and `clear` are idempotent, and
`clear` on the Clear state is a no-op. -/
theorem claim_c8_set_clear_idempotent (n : Nat) (h : WaitableEvent.Reachable n) :
    WaitableEvent.is_set (WaitableEvent.set (WaitableEvent.set n)) = true ∧
    WaitableEvent.clear (WaitableEvent.set (WaitableEvent.set n)) =
      WaitableEvent.initState ∧
    WaitableEvent.set (WaitableEvent.set n) = WaitableEvent.set n ∧
    WaitableEvent.clear (WaitableEvent.clear n) = WaitableEvent.clear n ∧
    WaitableEvent.clear WaitableEvent.initState = WaitableEvent.initState := by
  have hle := WaitableEvent.reachable_le_one h
  interval_cases n <;> decide

/-- Witness for C8 at the freshly constructed (Clear) signal. -/
theorem claim_c8_witness :
    WaitableEvent.is_set (WaitableEvent.set (WaitableEvent.set 0)) = true ∧
    WaitableEvent.clear (WaitableEvent.set (WaitableEvent.set 0)) =
      WaitableEvent.initState ∧
    WaitableEvent.set (WaitableEvent.set 0) = WaitableEvent.set 0 ∧
    WaitableEvent.clear (WaitableEvent.clear 0) = WaitableEvent.clear 0 ∧
    WaitableEvent.clear WaitableEvent.initState = WaitableEvent.initState :=
  claim_c8_set_clear_idempotent 0 WaitableEvent.Reachable.init

/-- Claim C9: stopping any non-`None` worker always returns (never hangs and
never errors), its trace requests termination exactly once, waits with the
single bounded grace `join(timeout=1)`, and logs an error afterwards exactly
when the worker ignored termination — with no retry or escalation beyond
that log. -/
theorem claim_c9_worker_stop_bounded (w : Worker) :
    (Process.worker_stop (some w)).isOk = true ∧
    Process.worker_stop (some w) =
      .ok (some ⟨w.alive && !w.obeysTerminate, w.obeysTerminate⟩,
           Process.stopActions w) ∧
    (Process.stopActions w).count Process.WAction.terminate = 1 ∧
    (Process.stopActions w).filter Process.WAction.isJoin =
      [Process.WAction.join 1] ∧
    (Process.stopActions w).contains Process.WAction.logError =
      (w.alive && !w.obeysTerminate) := by
  rcases w with ⟨a, o⟩
  cases a <;> cases o <;> exact ⟨rfl, rfl, rfl, rfl, rfl⟩

/-- Claim C10: a commit that touches the watched path but during which
`iterate` never records a value still emits exactly one event, carrying the
`pre_iterate` default: `('enabled', False)`. -/
theorem claim_c10_empty_commit_emits_default :
    ConfigSubscriber.commitEvents [] = [("enabled", false)] := rfl
